import Mathlib

/-!
# Transaction-Monitoring-System: verification of the browser-side modules

Shallow embedding of the pure/stateful logic of the AML operations console:
the real-time monitor (`src/static/js/real-time-monitoring.js`), the shared
utilities (`src/static/js/utils.js`), the dashboard controller
(`src/unnamed/part_000`, class `AMLDashboard`), and the case-management
controller (`src/static/js/case-management.js`).

Conventions of the embedding:
* JS numbers that carry risk scores, amounts and confidences are modelled as
  rationals (`ℚ`); timestamps are epoch milliseconds modelled as integers
  (`ℤ`), with `new Date(x).getTime()` the identity on that representation.
* JS strings are Lean `String`s; where character-level structure matters
  (masking, substring search) we work on `String.toList`.
* Fallible JS values (`NaN`, absent fields) are `Option`s.
* DOM and chart mutations are ignored; only the data state
  (`monitoringData`, connection counters, fetch outcomes) is modelled.
-/

namespace RealTimeMonitor

/-- `getRiskLevel` of `real-time-monitoring.js` (lines 612-617):
thresholds 0.9 / 0.7 / 0.4. -/
def getRiskLevel (score : ℚ) : String :=
  if score ≥ 9/10 then "critical"
  else if score ≥ 7/10 then "high"
  else if score ≥ 4/10 then "medium"
  else "low"

/-- A streamed transaction as consumed by the real-time monitor. -/
structure Transaction where
  id : String
  customer_id : String
  amount : ℚ
  currency : String
  channel : String
  risk_score : ℚ
  timestamp : ℤ
  ml_prediction : Option String := none
  ml_confidence : Option ℚ := none
  deriving DecidableEq, Repr

/-- A streamed alert as consumed by the real-time monitor. -/
structure Alert where
  id : String
  alert_type : String
  risk_score : ℚ
  customer_id : String
  description : String
  timestamp : ℤ
  deriving DecidableEq, Repr

/-- The `this.filters` record of the monitor. -/
structure Filters where
  riskLevel : String
  alertType : String
  timeRange : String
  deriving DecidableEq, Repr

/-- JS `needle.isPrefixOf hay` style check used to build substring search. -/
def listIsPrefix : List Char → List Char → Bool
  | [], _ => true
  | _ :: _, [] => false
  | c :: cs, d :: ds => c = d && listIsPrefix cs ds

/-- JS `hay.includes(needle)`: substring containment on character lists. -/
def listIncludes (needle : List Char) : List Char → Bool
  | [] => decide (needle = [])
  | c :: rest => listIsPrefix needle (c :: rest) || listIncludes needle rest

/-- The time-range leg shared by `matchesFilter` and `matchesAlertFilter`:
the item passes unless its age exceeds the selected cutoff
(1h = 3600000 ms, 4h = 14400000 ms, 24h = 86400000 ms); any other
`timeRange` value performs no check. -/
def timeRangePasses (timeRange : String) (timeDiff : ℤ) : Bool :=
  if timeRange = "1h" then decide (timeDiff ≤ 3600000)
  else if timeRange = "4h" then decide (timeDiff ≤ 14400000)
  else if timeRange = "24h" then decide (timeDiff ≤ 86400000)
  else true

/-- `matchesFilter` of `real-time-monitoring.js` (lines 511-536): the
transaction predicate checks the risk-level bucket and the time window;
it never consults `filters.alertType`. `now` is the current epoch ms. -/
def matchesFilter (f : Filters) (now : ℤ) (t : Transaction) : Bool :=
  if f.riskLevel ≠ "all" ∧ getRiskLevel t.risk_score ≠ f.riskLevel then false
  else timeRangePasses f.timeRange (now - t.timestamp)

/-- The `matchesType` computation inside `matchesAlertFilter`
(lines 1044-1051): the selection `fraud`/`aml`/`sanction` is mapped to a
keyword that must occur inside `alert_type`. -/
def alertTypeKeywordMatch (sel : String) (alertType : String) : Bool :=
  if sel = "fraud" ∧ listIncludes "FRAUD".toList alertType.toList then true
  else if sel = "aml" ∧ listIncludes "AML".toList alertType.toList then true
  else if sel = "sanction" ∧ listIncludes "SANCTIONS".toList alertType.toList then true
  else false

/-- `matchesAlertFilter` of `real-time-monitoring.js` (lines 1033-1073):
risk-level leg, alert-type leg, then time-range leg. -/
def matchesAlertFilter (f : Filters) (now : ℤ) (a : Alert) : Bool :=
  if f.riskLevel ≠ "all" ∧ getRiskLevel a.risk_score ≠ f.riskLevel then false
  else if f.alertType ≠ "all" ∧ ¬ alertTypeKeywordMatch f.alertType a.alert_type then false
  else timeRangePasses f.timeRange (now - a.timestamp)

/-- Spec-side predicate: the risk-level leg in isolation
("its risk-level bucket matches the selected risk level, or the selection
is `all`"). -/
def riskLevelPasses (f : Filters) (score : ℚ) : Bool :=
  f.riskLevel = "all" || getRiskLevel score = f.riskLevel

/-- Spec-side predicate: the alert-type leg in isolation
("its alert-type contains the selected type substring, or the selection
is `all`"). -/
def alertTypePasses (f : Filters) (alertType : String) : Bool :=
  f.alertType = "all" || alertTypeKeywordMatch f.alertType alertType

/-- The visibility predicate the spec claims for every buffered item:
three independent predicates ANDed together.  A transaction carries no
`alert_type` field, so for transactions the alert-type leg is evaluated
on the absent (empty) alert type. -/
def specClaimedTxVisible (f : Filters) (now : ℤ) (t : Transaction) : Bool :=
  riskLevelPasses f t.risk_score && alertTypePasses f "" &&
    timeRangePasses f.timeRange (now - t.timestamp)

end RealTimeMonitor

namespace AMLBase

/-- `AMLBase.getRiskLevel` of `utils.js` (lines 24-29): textually the same
thresholds 0.9 / 0.7 / 0.4 as the real-time monitor's copy. -/
def getRiskLevel (score : ℚ) : String :=
  if score ≥ 9/10 then "critical"
  else if score ≥ 7/10 then "high"
  else if score ≥ 4/10 then "medium"
  else "low"

end AMLBase

namespace AMLDashboard

/-- `this.config.riskThresholds` of the dashboard module
(`src/unnamed/part_000`, lines 24-29). -/
structure RiskThresholds where
  low : ℚ
  medium : ℚ
  high : ℚ
  critical : ℚ
  deriving DecidableEq, Repr

/-- The configured thresholds: low 0.3, medium 0.6, high 0.8, critical 0.9. -/
def configRiskThresholds : RiskThresholds :=
  { low := 3/10, medium := 6/10, high := 8/10, critical := 9/10 }

/-- `AMLDashboard.getRiskLevel` (`src/unnamed/part_000`, lines 746-751),
reading its cutoffs from `config.riskThresholds`. -/
def getRiskLevelWith (th : RiskThresholds) (score : ℚ) : String :=
  if score ≥ th.critical then "critical"
  else if score ≥ th.high then "high"
  else if score ≥ th.medium then "medium"
  else "low"

/-- The dashboard's risk-bucket function with its actual configuration. -/
def getRiskLevel (score : ℚ) : String :=
  getRiskLevelWith configRiskThresholds score

end AMLDashboard

namespace RealTimeMonitor

/-- `addTransactionToStream` (lines 169-185), restricted to its effect on
`monitoringData.transactions`: `unshift` then truncate to 100 entries. -/
def addTransactionToStream (transaction : Transaction)
    (transactions : List Transaction) : List Transaction :=
  let buf := transaction :: transactions
  if buf.length > 100 then buf.take 100 else buf

/-- `handleNewAlert` (lines 249-274), restricted to its effect on
`monitoringData.alerts`: `unshift` then truncate to 50 entries. -/
def handleNewAlertBuffer (alert : Alert) (alerts : List Alert) : List Alert :=
  let buf := alert :: alerts
  if buf.length > 50 then buf.take 50 else buf

/-- `maskCustomerId` (lines 622-625) on the character list of the id:
ids shorter than 4 pass through; otherwise first 2 and last 2 characters
are kept and the middle is replaced by `*`s. -/
def maskCustomerId (customerId : List Char) : List Char :=
  if customerId.length < 4 then customerId
  else customerId.take 2 ++ List.replicate (customerId.length - 4) '*' ++
    customerId.drop (customerId.length - 2)

end RealTimeMonitor

/-- Prepending then conditionally truncating is the same as always taking
the cap. -/
theorem cons_cap_eq_take {α : Type} (cap : ℕ) (l : List α) :
    (if l.length > cap then l.take cap else l) = l.take cap := by
  split_ifs with h
  · rfl
  · exact (List.take_of_length_le (le_of_not_lt h)).symm

/-- C4: the real-time monitoring module's `getRiskLevel` (duplicated in
`utils.js`) buckets with thresholds 0.4 / 0.7 / 0.9: `critical` iff
score ≥ 0.9, `high` iff 0.7 ≤ score < 0.9, `medium` iff
0.4 ≤ score < 0.7, `low` iff score < 0.4; and the two copies agree. -/
theorem riskLevel_thresholds (s : ℚ) :
    (RealTimeMonitor.getRiskLevel s = "critical" ↔ 9/10 ≤ s)
    ∧ (RealTimeMonitor.getRiskLevel s = "high" ↔ 7/10 ≤ s ∧ s < 9/10)
    ∧ (RealTimeMonitor.getRiskLevel s = "medium" ↔ 4/10 ≤ s ∧ s < 7/10)
    ∧ (RealTimeMonitor.getRiskLevel s = "low" ↔ s < 4/10)
    ∧ AMLBase.getRiskLevel s = RealTimeMonitor.getRiskLevel s := by
  unfold RealTimeMonitor.getRiskLevel AMLBase.getRiskLevel
  split_ifs with h1 h2 h3 <;>
    refine ⟨?_, ?_, ?_, ?_, rfl⟩ <;>
    constructor <;> intro h <;>
    first
      | rfl
      | linarith
      | (exfalso; revert h; decide)
      | (constructor <;> linarith)

/-- C5: the dashboard's risk-bucket function (thresholds 0.3/0.6/0.8/0.9
from its config) and the real-time monitor's (0.4/0.7/0.9) disagree on
some score in [0, 1]. -/
theorem dashboard_monitor_riskLevel_differ :
    ∃ q : ℚ, 0 ≤ q ∧ q ≤ 1 ∧
      AMLDashboard.getRiskLevel q ≠ RealTimeMonitor.getRiskLevel q := by
  refine ⟨9/20, by norm_num, by norm_num, ?_⟩
  unfold AMLDashboard.getRiskLevel AMLDashboard.getRiskLevelWith
    AMLDashboard.configRiskThresholds RealTimeMonitor.getRiskLevel
  norm_num
  decide

/-- C2: `addTransactionToStream` makes the transactions buffer the new
transaction prepended to the previous buffer truncated to at most 100
entries (tail entries dropped), `handleNewAlert` does the same for alerts
with cap 50, and the bounds `length ≤ 100` / `length ≤ 50` hold after
every ingestion. -/
theorem buffer_discipline (t : RealTimeMonitor.Transaction)
    (txs : List RealTimeMonitor.Transaction)
    (a : RealTimeMonitor.Alert) (als : List RealTimeMonitor.Alert) :
    RealTimeMonitor.addTransactionToStream t txs = (t :: txs).take 100
    ∧ (RealTimeMonitor.addTransactionToStream t txs).length ≤ 100
    ∧ RealTimeMonitor.handleNewAlertBuffer a als = (a :: als).take 50
    ∧ (RealTimeMonitor.handleNewAlertBuffer a als).length ≤ 50 := by
  have h1 : RealTimeMonitor.addTransactionToStream t txs = (t :: txs).take 100 :=
    cons_cap_eq_take 100 (t :: txs)
  have h2 : RealTimeMonitor.handleNewAlertBuffer a als = (a :: als).take 50 :=
    cons_cap_eq_take 50 (a :: als)
  refine ⟨h1, ?_, h2, ?_⟩
  · rw [h1, List.length_take]; exact min_le_left _ _
  · rw [h2, List.length_take]; exact min_le_left _ _

/-- C10: `maskCustomerId` returns ids of length < 4 unchanged; for ids of
length ≥ 4 the result has the same length, keeps the first 2 and last 2
characters, and the middle `length - 4` characters are all `*`; an id of
length exactly 4 comes back with no characters masked. -/
theorem maskCustomerId_spec (cid : List Char) :
    (cid.length < 4 → RealTimeMonitor.maskCustomerId cid = cid)
    ∧ (4 ≤ cid.length →
        (RealTimeMonitor.maskCustomerId cid).length = cid.length
        ∧ (RealTimeMonitor.maskCustomerId cid).take 2 = cid.take 2
        ∧ (RealTimeMonitor.maskCustomerId cid).drop (cid.length - 2)
            = cid.drop (cid.length - 2)
        ∧ ((RealTimeMonitor.maskCustomerId cid).drop 2).take (cid.length - 4)
            = List.replicate (cid.length - 4) '*')
    ∧ (cid.length = 4 → RealTimeMonitor.maskCustomerId cid = cid) := by
  refine ⟨fun h => by simp [RealTimeMonitor.maskCustomerId, h], fun h => ?_, fun h => ?_⟩
  · have hnot : ¬ cid.length < 4 := not_lt.mpr h
    have htk : (cid.take 2).length = 2 := by
      rw [List.length_take]; omega
    have hmid : (List.replicate (cid.length - 4) '*').length = cid.length - 4 :=
      List.length_replicate _ _
    have hdr : (cid.drop (cid.length - 2)).length = 2 := by
      rw [List.length_drop]; omega
    have hres : RealTimeMonitor.maskCustomerId cid
        = cid.take 2 ++ List.replicate (cid.length - 4) '*' ++
          cid.drop (cid.length - 2) := by
      simp [RealTimeMonitor.maskCustomerId, hnot]
    constructor
    · rw [hres]; simp [List.length_append, htk, hmid, hdr]; omega
    constructor
    · rw [hres, List.append_assoc, List.take_append_eq_append_take, htk]
      simp [List.take_take]
    constructor
    · rw [hres, List.append_assoc]
      have hlen : (cid.take 2 ++ List.replicate (cid.length - 4) '*').length
          = cid.length - 2 := by
        rw [List.length_append, htk, hmid]; omega
      rw [← List.append_assoc, List.drop_left' hlen]
    · rw [hres, List.append_assoc, List.drop_left' htk, List.take_left' hmid]
  · have hres := (by
      simp [RealTimeMonitor.maskCustomerId, h] :
      RealTimeMonitor.maskCustomerId cid
        = cid.take 2 ++ List.replicate (4 - 4) '*' ++ cid.drop (4 - 2))
    rw [hres]
    simp [List.take_append_drop]

/-- Witness for `maskCustomerId_spec`: a 2-character id passes through
unchanged and a 6-character id keeps its length. -/
theorem maskCustomerId_spec_witness :
    RealTimeMonitor.maskCustomerId "AB".toList = "AB".toList
    ∧ (RealTimeMonitor.maskCustomerId "CUST01".toList).length
        = ("CUST01".toList).length :=
  ⟨(maskCustomerId_spec "AB".toList).1 (by decide),
   ((maskCustomerId_spec "CUST01".toList).2.1 (by decide)).1⟩

/-- A concrete transaction used to separate `matchesFilter` from the
claimed three-predicate visibility. -/
def c1Tx : RealTimeMonitor.Transaction :=
  { id := "T1", customer_id := "CUST01", amount := 100, currency := "USD",
    channel := "online", risk_score := 1/2, timestamp := 0 }

/-- C1 counterexample: with filters `{riskLevel := all, alertType := fraud,
timeRange := 1h}` and a fresh transaction, `matchesFilter` reports the
transaction visible although the claimed three-predicate conjunction
(whose alert-type leg fails, the transaction having no alert-type
containing `FRAUD`) is false: transaction visibility ignores the selected
alert type. -/
theorem matchesFilter_three_predicates_counterexample :
    RealTimeMonitor.matchesFilter ⟨"all", "fraud", "1h"⟩ 0 c1Tx = true
    ∧ RealTimeMonitor.specClaimedTxVisible ⟨"all", "fraud", "1h"⟩ 0 c1Tx = false := by
  constructor
  · decide
  · decide

/-- C1 amended: an alert is visible under `matchesAlertFilter` iff it
passes the three independent predicates ANDed together (risk-level bucket,
mapped alert-type keyword containment, elapsed-time window), but a
transaction is visible under `matchesFilter` iff it passes only the
risk-level and elapsed-time predicates: the alert-type filter is never
applied to transactions. -/
theorem filter_predicates_amended (f : RealTimeMonitor.Filters) (now : ℤ)
    (t : RealTimeMonitor.Transaction) (a : RealTimeMonitor.Alert) :
    RealTimeMonitor.matchesFilter f now t
      = (RealTimeMonitor.riskLevelPasses f t.risk_score
          && RealTimeMonitor.timeRangePasses f.timeRange (now - t.timestamp))
    ∧ RealTimeMonitor.matchesAlertFilter f now a
      = (RealTimeMonitor.riskLevelPasses f a.risk_score
          && RealTimeMonitor.alertTypePasses f a.alert_type
          && RealTimeMonitor.timeRangePasses f.timeRange (now - a.timestamp)) := by
  constructor
  · unfold RealTimeMonitor.matchesFilter RealTimeMonitor.riskLevelPasses
    by_cases h1 : f.riskLevel = "all" <;>
      by_cases h2 : RealTimeMonitor.getRiskLevel t.risk_score = f.riskLevel <;>
      simp [h1, h2]
  · unfold RealTimeMonitor.matchesAlertFilter RealTimeMonitor.riskLevelPasses
      RealTimeMonitor.alertTypePasses
    by_cases h1 : f.riskLevel = "all" <;>
      by_cases h2 : RealTimeMonitor.getRiskLevel a.risk_score = f.riskLevel <;>
      by_cases h3 : f.alertType = "all" <;>
      by_cases h4 : RealTimeMonitor.alertTypeKeywordMatch f.alertType a.alert_type <;>
      simp [h1, h2, h3, h4]

namespace RealTimeMonitor

/-- `this.maxReconnectAttempts` (line 11). -/
def maxReconnectAttempts : ℕ := 10

/-- `this.reconnectInterval` in ms (line 12). -/
def reconnectInterval : ℕ := 5000

/-- The connection-related fields of the monitor. -/
structure ConnState where
  isConnected : Bool
  reconnectAttempts : ℕ
  deriving DecidableEq, Repr

/-- Constructor state: disconnected, zero reconnect attempts (lines 8-10). -/
def initConnState : ConnState := { isConnected := false, reconnectAttempts := 0 }

/-- Observable side effects of one connection event: the delay of a
scheduled `setTimeout(setupWebSocket, ...)` if any, and whether the
terminal `showConnectionError` was reported. -/
structure ConnEffect where
  scheduledReconnectDelay : Option ℕ
  terminalError : Bool
  deriving DecidableEq, Repr

/-- `attemptReconnect` (lines 98-110): below the cap, bump the counter and
schedule a reconnect after `reconnectInterval`; at the cap, report the
terminal connection error and schedule nothing. -/
def attemptReconnect (s : ConnState) : ConnState × ConnEffect :=
  if s.reconnectAttempts < maxReconnectAttempts then
    ({ s with reconnectAttempts := s.reconnectAttempts + 1 },
     { scheduledReconnectDelay := some reconnectInterval, terminalError := false })
  else
    (s, { scheduledReconnectDelay := none, terminalError := true })

/-- The three WebSocket lifecycle callbacks installed by `setupWebSocket`. -/
inductive ConnEvent
  | onOpen
  | onClose
  | onError
  deriving DecidableEq, Repr

/-- One step of the connection state machine (lines 64-88): `onopen` sets
connected and resets the counter; `onclose` clears connected and runs
`attemptReconnect`; `onerror` only logs. -/
def connStep (s : ConnState) : ConnEvent → ConnState × ConnEffect
  | .onOpen =>
      ({ isConnected := true, reconnectAttempts := 0 },
       { scheduledReconnectDelay := none, terminalError := false })
  | .onClose => attemptReconnect { s with isConnected := false }
  | .onError => (s, { scheduledReconnectDelay := none, terminalError := false })

/-- Run a sequence of connection events from a state. -/
def connRun (s : ConnState) (events : List ConnEvent) : ConnState :=
  events.foldl (fun st e => (connStep st e).1) s

end RealTimeMonitor

/-- Every event sequence started from a state within the attempt cap stays
within the cap. -/
theorem connRun_attempts_le (events : List RealTimeMonitor.ConnEvent) :
    ∀ s : RealTimeMonitor.ConnState,
      s.reconnectAttempts ≤ RealTimeMonitor.maxReconnectAttempts →
      (RealTimeMonitor.connRun s events).reconnectAttempts
        ≤ RealTimeMonitor.maxReconnectAttempts := by
  induction events with
  | nil => intro s h; exact h
  | cons e es ih =>
    intro s h
    have hstep : ((RealTimeMonitor.connStep s e).1).reconnectAttempts
        ≤ RealTimeMonitor.maxReconnectAttempts := by
      cases e with
      | onOpen => simp [RealTimeMonitor.connStep]
      | onClose =>
        simp only [RealTimeMonitor.connStep, RealTimeMonitor.attemptReconnect]
        split_ifs with hlt
        · simpa using hlt
        · simpa using h
      | onError => exact h
    exact ih _ hstep

/-- C3: a close event schedules a reconnect after exactly 5000 ms iff the
attempt counter is below the maximum 10; every step keeps the counter at
most 10, and so does every run from the initial state; once the counter
has reached 10 a close schedules no reconnect and reports the terminal
connection error; a successful open resets the counter to 0. -/
theorem connection_lifecycle (s : RealTimeMonitor.ConnState)
    (events : List RealTimeMonitor.ConnEvent)
    (h : s.reconnectAttempts ≤ 10) :
    ((RealTimeMonitor.connStep s .onClose).2.scheduledReconnectDelay = some 5000
        ↔ s.reconnectAttempts < 10)
    ∧ (∀ e, ((RealTimeMonitor.connStep s e).1).reconnectAttempts ≤ 10)
    ∧ (RealTimeMonitor.connRun RealTimeMonitor.initConnState events).reconnectAttempts ≤ 10
    ∧ (s.reconnectAttempts = 10 →
        (RealTimeMonitor.connStep s .onClose).2.scheduledReconnectDelay = none
        ∧ (RealTimeMonitor.connStep s .onClose).2.terminalError = true)
    ∧ ((RealTimeMonitor.connStep s .onOpen).1).reconnectAttempts = 0 := by
  have hmax : RealTimeMonitor.maxReconnectAttempts = 10 := rfl
  refine ⟨?_, ?_, ?_, ?_, rfl⟩
  · simp only [RealTimeMonitor.connStep, RealTimeMonitor.attemptReconnect, hmax]
    split_ifs with hlt
    · simpa [RealTimeMonitor.reconnectInterval] using hlt
    · simpa using hlt
  · intro e
    cases e with
    | onOpen => simp [RealTimeMonitor.connStep]
    | onClose =>
      simp only [RealTimeMonitor.connStep, RealTimeMonitor.attemptReconnect, hmax]
      split_ifs with hlt
      · simp
        omega
      · simpa using h
    | onError => exact h
  · exact connRun_attempts_le events RealTimeMonitor.initConnState (by simp [RealTimeMonitor.initConnState])
  · intro h10
    simp [RealTimeMonitor.connStep, RealTimeMonitor.attemptReconnect, hmax, h10]

/-- Witness for `connection_lifecycle`: at the cap a close reports the
terminal error and schedules nothing, and an open resets the counter. -/
theorem connection_lifecycle_witness :
    ((RealTimeMonitor.connStep ⟨false, 10⟩ .onClose).2.terminalError = true
      ∧ (RealTimeMonitor.connStep ⟨false, 10⟩ .onClose).2.scheduledReconnectDelay = none)
    ∧ ((RealTimeMonitor.connStep ⟨false, 10⟩ .onOpen).1).reconnectAttempts = 0 :=
  ⟨⟨((connection_lifecycle ⟨false, 10⟩ [] (by decide)).2.2.2.1 rfl).2,
    ((connection_lifecycle ⟨false, 10⟩ [] (by decide)).2.2.2.1 rfl).1⟩,
   (connection_lifecycle ⟨false, 10⟩ [] (by decide)).2.2.2.2⟩

namespace CaseManagement

/-- The `{class, text}` record returned by `calculateSLAStatus`. -/
structure SLAStatus where
  cls : String
  text : String
  deriving DecidableEq, Repr

/-- `calculateSLAStatus` of `case-management.js` (lines 217-231): `now` and
`target` are epoch milliseconds; the difference is converted to hours and
classified as overdue / due-soon (< 24h) / on-track. -/
def calculateSLAStatus (targetDate : Option ℤ) (now : ℤ) : SLAStatus :=
  match targetDate with
  | none => { cls := "unknown", text := "No SLA" }
  | some target =>
    let diffHours : ℚ := ((target - now : ℤ) : ℚ) / (1000 * 60 * 60)
    if diffHours < 0 then { cls := "overdue", text := "Overdue" }
    else if diffHours < 24 then { cls := "due-soon", text := "Due Soon" }
    else { cls := "on-track", text := "On Track" }

end CaseManagement

/-- C6: for every non-null target date, `calculateSLAStatus` returns
`overdue` exactly when the target is earlier than `now`, `due-soon`
exactly when the difference is non-negative and below 24 hours
(86400000 ms), and `on-track` exactly when it is at least 24 hours. -/
theorem calculateSLAStatus_spec (target now : ℤ) :
    ((CaseManagement.calculateSLAStatus (some target) now).cls = "overdue"
        ↔ target < now)
    ∧ ((CaseManagement.calculateSLAStatus (some target) now).cls = "due-soon"
        ↔ now ≤ target ∧ target - now < 86400000)
    ∧ ((CaseManagement.calculateSLAStatus (some target) now).cls = "on-track"
        ↔ 86400000 ≤ target - now) := by
  have hc : (0 : ℚ) < 1000 * 60 * 60 := by norm_num
  have key1 : (((target - now : ℤ) : ℚ) / (1000 * 60 * 60) < 0) ↔ target < now := by
    rw [div_lt_iff₀ hc]
    constructor
    · intro h
      have h2 : ((target - now : ℤ) : ℚ) < 0 := by linarith
      have h3 : (target - now : ℤ) < 0 := by exact_mod_cast h2
      omega
    · intro h
      have h2 : (target - now : ℤ) < 0 := by omega
      have h3 : ((target - now : ℤ) : ℚ) < 0 := by exact_mod_cast h2
      linarith
  have key2 : (((target - now : ℤ) : ℚ) / (1000 * 60 * 60) < 24)
      ↔ target - now < 86400000 := by
    rw [div_lt_iff₀ hc]
    constructor
    · intro h
      have h2 : ((target - now : ℤ) : ℚ) < 86400000 := by linarith
      exact_mod_cast h2
    · intro h
      have h2 : ((target - now : ℤ) : ℚ) < 86400000 := by exact_mod_cast h
      linarith
  unfold CaseManagement.calculateSLAStatus
  simp only []
  split_ifs with h1 h2
  · refine ⟨by simp [key1.mp h1], ?_, ?_⟩
    · constructor
      · intro hcontra
        exact absurd hcontra (by decide)
      · intro hcontra
        have := key1.mp h1
        omega
    · constructor
      · intro hcontra
        exact absurd hcontra (by decide)
      · intro hcontra
        have := key1.mp h1
        omega
  · have hge : now ≤ target := by
      have := (not_iff_not.mpr key1).mp h1
      omega
    have hlt : target - now < 86400000 := key2.mp h2
    refine ⟨?_, by simp [hge, hlt], ?_⟩
    · constructor
      · intro hcontra
        exact absurd hcontra (by decide)
      · intro hcontra
        omega
    · constructor
      · intro hcontra
        exact absurd hcontra (by decide)
      · intro hcontra
        omega
  · have hge : now ≤ target := by
      have := (not_iff_not.mpr key1).mp h1
      omega
    have hbig : 86400000 ≤ target - now := by
      have := (not_iff_not.mpr key2).mp h2
      omega
    refine ⟨?_, ?_, by simp [hbig]⟩
    · constructor
      · intro hcontra
        exact absurd hcontra (by decide)
      · intro hcontra
        omega
    · constructor
      · intro hcontra
        exact absurd hcontra (by decide)
      · intro hcontra
        omega

namespace RealTimeMonitor

/-- The system-metrics record rendered by `updateSystemMetricsDisplay`. -/
structure SystemMetrics where
  cpu_usage : ℚ
  memory_usage : ℚ
  active_connections : ℕ
  deriving DecidableEq, Repr

/-- Payload of an `ml_prediction` message. -/
structure MLPrediction where
  transaction_id : String
  prediction : String
  confidence : ℚ
  deriving DecidableEq, Repr

/-- Payload of a `risk_score_update` message (the handler only logs it). -/
structure RiskScoreUpdate where
  transaction_id : String
  risk_score : ℚ
  deriving DecidableEq, Repr

/-- `this.monitoringData` (lines 14-18): the rolling buffers and the
system-metrics record; `systemMetrics` starts as the empty object,
modelled as `none`. -/
structure MonitoringData where
  transactions : List Transaction
  alerts : List Alert
  systemMetrics : Option SystemMetrics
  deriving DecidableEq, Repr

/-- `handleTransactionStream` (lines 157-164) on the data state: each
streamed transaction is pushed through `addTransactionToStream`. -/
def handleTransactionStream (txs : List Transaction) (st : MonitoringData) :
    MonitoringData :=
  txs.foldl
    (fun acc t => { acc with transactions := addTransactionToStream t acc.transactions })
    st

/-- The in-place mutation of `handleMLPrediction` (lines 279-291): the
first buffered transaction whose id matches the prediction gets its
`ml_prediction` / `ml_confidence` fields set. -/
def applyPredictionToFirst (p : MLPrediction) : List Transaction → List Transaction
  | [] => []
  | t :: ts =>
    if t.id = p.transaction_id then
      { t with ml_prediction := some p.prediction,
               ml_confidence := some p.confidence } :: ts
    else t :: applyPredictionToFirst p ts

/-- `handleMLPrediction` on the data state. -/
def handleMLPrediction (p : MLPrediction) (st : MonitoringData) : MonitoringData :=
  { st with transactions := applyPredictionToFirst p st.transactions }

/-- `handleSystemMetrics` (lines 296-299) on the data state. -/
def handleSystemMetrics (m : SystemMetrics) (st : MonitoringData) : MonitoringData :=
  { st with systemMetrics := some m }

/-- `handleNewAlert` (lines 249-274) on the data state. -/
def handleNewAlert (a : Alert) (st : MonitoringData) : MonitoringData :=
  { st with alerts := handleNewAlertBuffer a st.alerts }

/-- An inbound WebSocket message after `JSON.parse`: the five known tagged
shapes, or any other tag (payload irrelevant, it is only logged). -/
inductive Message
  | transaction_stream (txs : List Transaction)
  | alert_generated (a : Alert)
  | ml_prediction (p : MLPrediction)
  | system_metrics (m : SystemMetrics)
  | risk_score_update (u : RiskScoreUpdate)
  | unknownType (ty : String)
  deriving DecidableEq, Repr

/-- The `message.type` string the `switch` scrutinises. -/
def Message.typeTag : Message → String
  | .transaction_stream _ => "transaction_stream"
  | .alert_generated _ => "alert_generated"
  | .ml_prediction _ => "ml_prediction"
  | .system_metrics _ => "system_metrics"
  | .risk_score_update _ => "risk_score_update"
  | .unknownType ty => ty

/-- `handleRealtimeMessage` (lines 127-152) on the data state: the fixed
type-to-handler dispatch; `risk_score_update` and the `default` arm only
log. -/
def handleRealtimeMessage (msg : Message) (st : MonitoringData) : MonitoringData :=
  match msg with
  | .transaction_stream txs => handleTransactionStream txs st
  | .alert_generated a => handleNewAlert a st
  | .ml_prediction p => handleMLPrediction p st
  | .system_metrics m => handleSystemMetrics m st
  | .risk_score_update _ => st
  | .unknownType _ => st

end RealTimeMonitor

/-- C7: a message whose type tag is none of the five known types leaves
the transactions buffer, the alerts buffer and the system-metrics record
unchanged. -/
theorem handleRealtimeMessage_unknown_frame (msg : RealTimeMonitor.Message)
    (st : RealTimeMonitor.MonitoringData)
    (h : msg.typeTag ∉ ["transaction_stream", "alert_generated", "ml_prediction",
        "system_metrics", "risk_score_update"]) :
    RealTimeMonitor.handleRealtimeMessage msg st = st := by
  cases msg with
  | transaction_stream txs =>
    exact absurd (by simp [RealTimeMonitor.Message.typeTag]) h
  | alert_generated a =>
    exact absurd (by simp [RealTimeMonitor.Message.typeTag]) h
  | ml_prediction p =>
    exact absurd (by simp [RealTimeMonitor.Message.typeTag]) h
  | system_metrics m =>
    exact absurd (by simp [RealTimeMonitor.Message.typeTag]) h
  | risk_score_update u => rfl
  | unknownType ty => rfl

/-- Witness for `handleRealtimeMessage_unknown_frame`: a `heartbeat`
message leaves a concrete state untouched. -/
theorem handleRealtimeMessage_unknown_frame_witness :
    RealTimeMonitor.handleRealtimeMessage (.unknownType "heartbeat")
      ⟨[], [], none⟩ = ⟨[], [], none⟩ :=
  handleRealtimeMessage_unknown_frame (.unknownType "heartbeat") ⟨[], [], none⟩
    (by decide)

namespace AMLDashboard

/-- Outcome of one REST fetch as the dashboard code distinguishes them:
2xx, a 401, or any other non-2xx status (a thrown network/parse failure
lands in the same `catch` as a non-2xx, so it is identified with
`httpError`). -/
inductive FetchOutcome
  | success
  | unauthorized
  | httpError
  deriving DecidableEq, Repr

/-- The responses the four REST resources of one refresh cycle return. -/
structure DashboardEnv where
  statsResp : FetchOutcome
  amlSummaryResp : FetchOutcome
  chartsDataResp : FetchOutcome
  alertsResp : FetchOutcome
  deriving DecidableEq, Repr

/-- Observable outcome of one `loadInitialData` cycle: which resources
were rendered, whether a redirect to login fired, whether the shared
dashboard error banner fired, and whether `loadAlerts`' own banner fired. -/
structure LoadResult where
  statsRendered : Bool
  amlSummaryRendered : Bool
  chartsRendered : Bool
  alertsRendered : Bool
  redirectedToLogin : Bool
  dashboardErrorShown : Bool
  alertsErrorShown : Bool
  deriving DecidableEq, Repr

/-- The all-false outcome. -/
def emptyLoadResult : LoadResult :=
  { statsRendered := false, amlSummaryRendered := false, chartsRendered := false,
    alertsRendered := false, redirectedToLogin := false,
    dashboardErrorShown := false, alertsErrorShown := false }

/-- `loadAlerts` (`src/unnamed/part_000`, lines 184-204): it has its own
try/catch, so a 401 redirects and any other failure shows its own
"Failed to load alerts" banner without touching the rest of the cycle. -/
def loadAlerts (resp : FetchOutcome) (r : LoadResult) : LoadResult :=
  match resp with
  | .success => { r with alertsRendered := true }
  | .unauthorized => { r with redirectedToLogin := true }
  | .httpError => { r with alertsErrorShown := true }

/-- `loadInitialData` (`src/unnamed/part_000`, lines 141-182): the stats,
AML-summary and charts fetches are awaited in sequence inside a single
`try`; a 401 returns after redirecting, and a non-2xx throws to the one
shared `catch`, which shows the single "Failed to load dashboard data"
banner and skips everything after the failing fetch.  `loadAlerts` is
invoked (not awaited) only after the first three fetches succeeded.
`hasToken` models `getAuthHeaders` finding a bearer token. -/
def loadInitialData (hasToken : Bool) (env : DashboardEnv) : LoadResult :=
  if !hasToken then { emptyLoadResult with redirectedToLogin := true }
  else
    match env.statsResp with
    | .unauthorized => { emptyLoadResult with redirectedToLogin := true }
    | .httpError => { emptyLoadResult with dashboardErrorShown := true }
    | .success =>
      let r1 := { emptyLoadResult with statsRendered := true }
      match env.amlSummaryResp with
      | .unauthorized => { r1 with redirectedToLogin := true }
      | .httpError => { r1 with dashboardErrorShown := true }
      | .success =>
        let r2 := { r1 with amlSummaryRendered := true }
        match env.chartsDataResp with
        | .unauthorized => { r2 with redirectedToLogin := true }
        | .httpError => { r2 with dashboardErrorShown := true }
        | .success =>
          let r3 := { r2 with chartsRendered := true }
          loadAlerts env.alertsResp r3

end AMLDashboard

/-- C8 counterexample: when the stats fetch of a cycle answers non-2xx
(all other resources healthy), the shared catch fires the single
dashboard banner and none of the remaining resources of that cycle is
fetched or rendered — contradicting the claim that a non-2xx aborts only
the one failing fetch. -/
theorem loadInitialData_partial_failure_counterexample :
    (AMLDashboard.loadInitialData true
        ⟨.httpError, .success, .success, .success⟩).dashboardErrorShown = true
    ∧ (AMLDashboard.loadInitialData true
        ⟨.httpError, .success, .success, .success⟩).amlSummaryRendered = false
    ∧ (AMLDashboard.loadInitialData true
        ⟨.httpError, .success, .success, .success⟩).chartsRendered = false
    ∧ (AMLDashboard.loadInitialData true
        ⟨.httpError, .success, .success, .success⟩).alertsRendered = false := by
  exact ⟨rfl, rfl, rfl, rfl⟩

/-- C8 amended: every fetch of the cycle independently checks for a 401
and redirects to login; but a non-2xx on an awaited fetch throws to the
single shared catch, which shows one dashboard-level banner and aborts
the remainder of the cycle; only the alerts fetch — launched
fire-and-forget after the first three succeed, with its own catch —
fails independently without disturbing the already rendered resources. -/
theorem loadInitialData_amended (env : AMLDashboard.DashboardEnv) :
    (env.statsResp = .unauthorized →
      (AMLDashboard.loadInitialData true env).redirectedToLogin = true)
    ∧ (env.statsResp = .success → env.amlSummaryResp = .unauthorized →
      (AMLDashboard.loadInitialData true env).redirectedToLogin = true)
    ∧ (env.statsResp = .success → env.amlSummaryResp = .success →
      env.chartsDataResp = .unauthorized →
      (AMLDashboard.loadInitialData true env).redirectedToLogin = true)
    ∧ (env.statsResp = .success → env.amlSummaryResp = .success →
      env.chartsDataResp = .success → env.alertsResp = .unauthorized →
      (AMLDashboard.loadInitialData true env).redirectedToLogin = true)
    ∧ (env.statsResp = .httpError →
      (AMLDashboard.loadInitialData true env).dashboardErrorShown = true
      ∧ (AMLDashboard.loadInitialData true env).amlSummaryRendered = false
      ∧ (AMLDashboard.loadInitialData true env).chartsRendered = false
      ∧ (AMLDashboard.loadInitialData true env).alertsRendered = false)
    ∧ (env.statsResp = .success → env.amlSummaryResp = .httpError →
      (AMLDashboard.loadInitialData true env).dashboardErrorShown = true
      ∧ (AMLDashboard.loadInitialData true env).statsRendered = true
      ∧ (AMLDashboard.loadInitialData true env).chartsRendered = false
      ∧ (AMLDashboard.loadInitialData true env).alertsRendered = false)
    ∧ (env.statsResp = .success → env.amlSummaryResp = .success →
      env.chartsDataResp = .success → env.alertsResp = .httpError →
      (AMLDashboard.loadInitialData true env).alertsErrorShown = true
      ∧ (AMLDashboard.loadInitialData true env).statsRendered = true
      ∧ (AMLDashboard.loadInitialData true env).amlSummaryRendered = true
      ∧ (AMLDashboard.loadInitialData true env).chartsRendered = true
      ∧ (AMLDashboard.loadInitialData true env).dashboardErrorShown = false) := by
  obtain ⟨s, a, c, al⟩ := env
  refine ⟨?_, ?_, ?_, ?_, ?_, ?_, ?_⟩ <;>
    · intros
      subst_vars
      first
        | rfl
        | exact ⟨rfl, rfl, rfl, rfl⟩
        | exact ⟨rfl, rfl, rfl, rfl, rfl⟩

/-- Witness for `loadInitialData_amended`: a failing alerts fetch after
three healthy fetches shows only the alerts banner and keeps the three
rendered resources. -/
theorem loadInitialData_amended_witness :
    (AMLDashboard.loadInitialData true
        ⟨.success, .success, .success, .httpError⟩).alertsErrorShown = true
    ∧ (AMLDashboard.loadInitialData true
        ⟨.success, .success, .success, .httpError⟩).chartsRendered = true :=
  ⟨((loadInitialData_amended ⟨.success, .success, .success, .httpError⟩).2.2.2.2.2.2
      rfl rfl rfl rfl).1,
   ((loadInitialData_amended ⟨.success, .success, .success, .httpError⟩).2.2.2.2.2.2
      rfl rfl rfl rfl).2.2.2.1⟩

namespace JSNumber

/-- The whitespace characters relevant to form values. -/
def isWhitespace (c : Char) : Bool :=
  c = ' ' || c = '\t' || c = '\n' || c = '\r'

/-- Drop leading whitespace (what `parseFloat` does before parsing). -/
def dropLeadingWS (l : List Char) : List Char := l.dropWhile isWhitespace

/-- Trim whitespace on both ends (what `Number` does before parsing). -/
def trimWS (l : List Char) : List Char :=
  ((l.dropWhile isWhitespace).reverse.dropWhile isWhitespace).reverse

/-- Value of a digit string read in base 10. -/
def digitsToNat (ds : List Char) : ℕ :=
  ds.foldl (fun acc c => 10 * acc + (c.toNat - '0'.toNat)) 0

/-- Consume an optional leading sign, returning its factor. -/
def parseSign : List Char → ℚ × List Char
  | '+' :: rest => (1, rest)
  | '-' :: rest => (-1, rest)
  | l => (1, l)

/-- Consume the unsigned mantissa `digits [. digits]` or `. digits` of a
decimal literal; `none` when no digit is present. -/
def mantissaAfterSign (l : List Char) : Option (ℚ × List Char) :=
  let ds := l.takeWhile Char.isDigit
  let l1 := l.dropWhile Char.isDigit
  match l1 with
  | '.' :: l2 =>
    let fs := l2.takeWhile Char.isDigit
    let l3 := l2.dropWhile Char.isDigit
    if ds.isEmpty && fs.isEmpty then none
    else some ((digitsToNat ds : ℚ) + (digitsToNat fs : ℚ) / (10 : ℚ) ^ fs.length, l3)
  | _ =>
    if ds.isEmpty then none
    else some ((digitsToNat ds : ℚ), l1)

/-- Consume an optional well-formed exponent `e|E [+|-] digits`, returning
the factor it contributes; a malformed exponent is left unconsumed. -/
def exponentPart (l : List Char) : ℚ × List Char :=
  match l with
  | c :: rest =>
    if c = 'e' ∨ c = 'E' then
      let sr := parseSign rest
      let es := sr.2.takeWhile Char.isDigit
      let r2 := sr.2.dropWhile Char.isDigit
      if es.isEmpty then (1, l)
      else if sr.1 < 0 then ((1 : ℚ) / (10 : ℚ) ^ digitsToNat es, r2)
      else ((10 : ℚ) ^ digitsToNat es, r2)
    else (1, l)
  | [] => (1, [])

/-- Consume one signed decimal literal at the front of the list, returning
its exact rational value and the unconsumed rest. -/
def parseDecimalLiteral (l : List Char) : Option (ℚ × List Char) :=
  let sl := parseSign l
  match mantissaAfterSign sl.2 with
  | none => none
  | some ml =>
    let el := exponentPart ml.2
    some (sl.1 * ml.1 * el.1, el.2)

/-- The ECMAScript builtin `parseFloat`, restricted to the decimal-literal
fragment of its grammar (the `Infinity` and hex forms are omitted):
trim leading whitespace, read the longest decimal literal prefix,
`none` (`NaN`) when no digit is found.  JS doubles are modelled by the
exact rational the literal denotes. -/
def jsParseFloat (s : String) : Option ℚ :=
  match parseDecimalLiteral (dropLeadingWS s.toList) with
  | none => none
  | some vr => some vr.1

/-- The ECMAScript string-to-number coercion that `isNaN(value)` applies,
restricted to the same decimal fragment: trim whitespace on both ends,
the empty remainder is 0, otherwise the whole remainder must be one
decimal literal; `none` models `NaN`. -/
def jsToNumber (s : String) : Option ℚ :=
  let t := trimWS s.toList
  if t.isEmpty then some 0
  else
    match parseDecimalLiteral t with
    | none => none
    | some vr => if vr.2.isEmpty then some vr.1 else none

end JSNumber

namespace AMLDashboard

/-- A value of the marshalled configuration object: a boolean, a parsed
float (`none` for `NaN`), or a passthrough string. -/
inductive ConfigValue
  | boolVal (b : Bool)
  | numVal (q : Option ℚ)
  | strVal (s : String)
  deriving DecidableEq, Repr

/-- The per-entry coercion of `handleConfigurationSubmit`
(`src/unnamed/part_000`, lines 2180-2190): `on` ↦ true, `off`/empty ↦
false, else if `!isNaN(value)` ↦ `parseFloat(value)`, else the string. -/
def coerceFormValue (value : String) : ConfigValue :=
  if value = "on" then .boolVal true
  else if value = "off" ∨ value = "" then .boolVal false
  else if (JSNumber.jsToNumber value).isSome then .numVal (JSNumber.jsParseFloat value)
  else .strVal value

/-- The marshalling loop of `handleConfigurationSubmit`: every form entry
`(key, value)` contributes `config[key] = coerce(value)` to the PUT body. -/
def marshalConfig (entries : List (String × String)) : List (String × ConfigValue) :=
  entries.map (fun kv => (kv.1, coerceFormValue kv.2))

end AMLDashboard

/-- C9: each form entry is marshalled by the coercion: a checkbox string
(`on` ↦ true, `off` or empty ↦ false) becomes a boolean, a
numeric-looking non-empty string becomes its parsed float value, and
every other string passes through unchanged. -/
theorem handleConfigurationSubmit_marshalling
    (entries : List (String × String)) (k v : String)
    (hmem : (k, v) ∈ entries) :
    (k, AMLDashboard.coerceFormValue v) ∈ AMLDashboard.marshalConfig entries
    ∧ (v = "on" → AMLDashboard.coerceFormValue v = .boolVal true)
    ∧ (v = "off" ∨ v = "" → AMLDashboard.coerceFormValue v = .boolVal false)
    ∧ (v ≠ "on" → v ≠ "off" → v ≠ "" → (JSNumber.jsToNumber v).isSome →
        AMLDashboard.coerceFormValue v = .numVal (JSNumber.jsParseFloat v))
    ∧ (v ≠ "on" → v ≠ "off" → v ≠ "" → JSNumber.jsToNumber v = none →
        AMLDashboard.coerceFormValue v = .strVal v) := by
  refine ⟨?_, ?_, ?_, ?_, ?_⟩
  · exact List.mem_map_of_mem (fun kv => (kv.1, AMLDashboard.coerceFormValue kv.2)) hmem
  · intro h
    simp [AMLDashboard.coerceFormValue, h]
  · intro h
    rcases h with h | h <;> simp [AMLDashboard.coerceFormValue, h]
  · intro h1 h2 h3 h4
    simp [AMLDashboard.coerceFormValue, h1, h2, h3, h4]
  · intro h1 h2 h3 h4
    simp [AMLDashboard.coerceFormValue, h1, h2, h3, h4]

/-- Witness for `handleConfigurationSubmit_marshalling`: the entry
`("enable_screening", "on")` of a concrete form is marshalled to the
boolean `true`. -/
theorem handleConfigurationSubmit_marshalling_witness :
    ("enable_screening", AMLDashboard.coerceFormValue "on")
        ∈ AMLDashboard.marshalConfig
            [("enable_screening", "on"), ("mode", "strict")]
    ∧ AMLDashboard.coerceFormValue "on" = .boolVal true :=
  ⟨(handleConfigurationSubmit_marshalling
      [("enable_screening", "on"), ("mode", "strict")]
      "enable_screening" "on" (by simp)).1,
   (handleConfigurationSubmit_marshalling
      [("enable_screening", "on"), ("mode", "strict")]
      "enable_screening" "on" (by simp)).2.1 rfl⟩
